import Mathlib

/-!
Verification development for the BackendForge generic REST backend
(`main.py`, `schemas.py`).  Documents are modelled as a BSON-like tree of
values; the document store (`database.py`, absent from the sources, and the
pymongo collection operations) is modelled from the spec's Document Store
Adapter contract.  Numeric scalars are modelled as integers.
-/

set_option maxHeartbeats 1000000

namespace BackendForge

mutual

/-- Values of a stored document: store-native identifiers (ObjectId, modelled
by a natural number), strings, integers, booleans, null, arrays and nested
documents. -/
inductive BVal : Type where
| oid : Nat → BVal
| str : String → BVal
| int : Int → BVal
| bool : Bool → BVal
| null : BVal
| arr : BList → BVal
| doc : BDoc → BVal
deriving DecidableEq

/-- A list of document values. -/
inductive BList : Type where
| nil : BList
| cons : BVal → BList → BList
deriving DecidableEq

/-- An ordered association list of fields, mirroring a Python dict / BSON
document. -/
inductive BDoc : Type where
| nil : BDoc
| cons : String → BVal → BDoc → BDoc
deriving DecidableEq

end

/-- Hexadecimal digit character for a value below 16 (lowercase, as in
`str(ObjectId)`). -/
def hexDigit (n : Nat) : Char :=
  if n < 10 then Char.ofNat (48 + n) else Char.ofNat (87 + n)

/-- The 24-character lowercase-hex string representation of a store-native
identifier, modelling Python's `str(ObjectId)`. -/
def oidToString (n : Nat) : String :=
  String.mk ((List.range 24).map (fun i => hexDigit (n / 16 ^ (23 - i) % 16)))

/-- Numeric value of a hexadecimal digit character. -/
def hexVal (c : Char) : Nat :=
  if c.isDigit then c.toNat - 48
  else if 'a' ≤ c ∧ c ≤ 'f' then c.toNat - 87
  else c.toNat - 55

/-- Whether a character is a hexadecimal digit (either case). -/
def isHexChar (c : Char) : Bool :=
  c.isDigit || ('a' ≤ c && c ≤ 'f') || ('A' ≤ c && c ≤ 'F')

/-- Models `bson.ObjectId(s)` applied to a string: succeeds exactly on
24-character hexadecimal strings, returning the identifier value; `none`
models the raised `InvalidId`/`ValueError`. -/
def parseObjectId (s : String) : Option Nat :=
  if s.data.length = 24 ∧ s.data.all isHexChar then
    some (s.data.foldl (fun a c => a * 16 + hexVal c) 0)
  else none

/-- Models `StrObjectId.validate` from `main.py` applied to a string id taken
from the URL path: returns the parsed ObjectId, or `none` for the raised
`ValueError("Invalid ObjectId")`. -/
def StrObjectId_validate (s : String) : Option Nat := parseObjectId s

mutual

/-- The serializer `serialize_doc` from `main.py`, traversing a document's
fields. -/
def serialize_doc : BDoc → BDoc
| .nil => .nil
| .cons k v rest => .cons k (serializeValue v) (serialize_doc rest)

/-- How `serialize_doc` rewrites one field value: an ObjectId becomes its
string form, a list is traversed element-wise, a nested dict recursively. -/
def serializeValue : BVal → BVal
| .oid n => .str (oidToString n)
| .arr xs => .arr (serializeElems xs)
| .doc d => .doc (serialize_doc d)
| v => v

/-- The list comprehension inside `serialize_doc`: a dict element is
serialized recursively, an ObjectId element becomes a string, and any other
element — including a nested list — is returned unchanged. -/
def serializeElems : BList → BList
| .nil => .nil
| .cons i rest =>
    .cons (match i with
           | .doc d => .doc (serialize_doc d)
           | .oid n => .str (oidToString n)
           | x => x) (serializeElems rest)

end

mutual

/-- Whether a value contains no store-native identifier anywhere. -/
def oidFreeV : BVal → Bool
| .oid _ => false
| .arr xs => oidFreeL xs
| .doc d => oidFreeD d
| _ => true

/-- Whether a list of values contains no store-native identifier anywhere. -/
def oidFreeL : BList → Bool
| .nil => true
| .cons v rest => oidFreeV v && oidFreeL rest

/-- Whether a document contains no store-native identifier anywhere. -/
def oidFreeD : BDoc → Bool
| .nil => true
| .cons _ v rest => oidFreeV v && oidFreeD rest

end

mutual

/-- Whether a value contains no sequence nested directly inside another
sequence (every array element is a scalar or a document). -/
def flatV : BVal → Bool
| .arr xs => flatElems xs
| .doc d => flatD d
| _ => true

/-- Whether the elements of an array are scalars or documents, recursively
free of directly nested sequences. -/
def flatElems : BList → Bool
| .nil => true
| .cons v rest =>
    (match v with
     | .arr _ => false
     | .doc d => flatD d
     | _ => true) && flatElems rest

/-- Whether a document contains no sequence nested directly inside another
sequence. -/
def flatD : BDoc → Bool
| .nil => true
| .cons _ v rest => flatV v && flatD rest

end

/-- First-match lookup of a field in a document (`doc[k]` / `doc.get(k)`). -/
def bdocLookup : BDoc → String → Option BVal
| .nil, _ => none
| .cons k v rest, k2 => if k2 = k then some v else bdocLookup rest k2

/-- The list of field names of a document, in order. -/
def bdocKeys : BDoc → List String
| .nil => []
| .cons k _ rest => k :: bdocKeys rest

/-- Whether a document's field names are pairwise distinct (always true of a
document decoded from a JSON object / Python dict). -/
def keysNodup (d : BDoc) : Bool := (bdocKeys d).Nodup

/-- Overwrite the first occurrence of field `k` with value `v`, or append the
field at the end when absent — one field of a MongoDB `$set`. -/
def setField : BDoc → String → BVal → BDoc
| .nil, k, v => .cons k v .nil
| .cons k0 v0 rest, k, v =>
    if k = k0 then .cons k0 v rest else .cons k0 v0 (setField rest k v)

/-- Field-level merge of a `$set` payload into an existing document: each
payload field overwrites in place or is appended, in payload order. -/
def mergeFields (orig : BDoc) : BDoc → BDoc
| .nil => orig
| .cons k v rest => mergeFields (setField orig k v) rest

/-- Build a document from a list of fields. -/
def listToDoc : List (String × BVal) → BDoc
| [] => .nil
| (k, v) :: rest => .cons k v (listToDoc rest)

/-- Whether a document satisfies an exact-match filter: every filter field is
present in the document with exactly the filter's value. -/
def matchesFilter (d : BDoc) : BDoc → Bool
| .nil => true
| .cons k v rest => (bdocLookup d k == some v) && matchesFilter d rest

/-- Modelled from the spec: the document store state behind `database.py` and
the pymongo handle `db`.  `connected` is false when the store was never
connected (`db is None`); `colls` maps a collection name to its ordered
record list; `nextId` is the next store-assigned identifier. -/
structure DB where
  connected : Bool
  colls : String → List BDoc
  nextId : Nat

/-- Replace one collection's record list, leaving every other collection
unchanged. -/
def setColl (db : DB) (c : String) (l : List BDoc) : DB :=
  { db with colls := fun c2 => if c2 = c then l else db.colls c2 }

/-- The error outcomes an HTTP handler can signal: 404 `HTTPException`,
422 `HTTPException`, 500 `HTTPException`, or the uncaught
`ValueError("Invalid ObjectId")` raised by `StrObjectId.validate`. -/
inductive ApiError : Type where
| notFound : String → ApiError
| unprocessable : String → ApiError
| serverError : String → ApiError
| invalidObjectId : ApiError
deriving DecidableEq

/-- Whether a handler outcome is a 500 server error. -/
def isServerError {α : Type} : Except ApiError α → Bool
| .error (.serverError _) => true
| _ => false

/-- Modelled from the spec: `create_document` from `database.py` — inserts a
record with the supplied fields plus a fresh store-assigned `_id`, returning
the new id's string form; signals the fatal store-unavailable server error
when the store was never connected. -/
def create_document (db : DB) (coll : String) (fields : BDoc) :
    Except ApiError String × DB :=
  if db.connected then
    (Except.ok (oidToString db.nextId),
     { setColl db coll (db.colls coll ++ [BDoc.cons "_id" (.oid db.nextId) fields]) with
       nextId := db.nextId + 1 })
  else (Except.error (.serverError "Database not available"), db)

/-- Modelled from the spec: `get_documents` from `database.py` — exact-match
conjunction filter over a collection; an empty filter returns all records;
returns the empty sequence rather than erroring when the store was never
connected. -/
def get_documents (db : DB) (coll : String) (filt : BDoc) : List BDoc :=
  if db.connected then (db.colls coll).filter (fun d => matchesFilter d filt)
  else []

/-- Update the first record whose `_id` is the given identifier by merging the
`$set` fields into it; returns whether a record matched. -/
def updateFirstById (t : Nat) (payload : BDoc) : List BDoc → Bool × List BDoc
| [] => (false, [])
| d :: rest =>
    if bdocLookup d "_id" = some (.oid t) then (true, mergeFields d payload :: rest)
    else
      let r := updateFirstById t payload rest
      (r.1, d :: r.2)

/-- Modelled from the spec: pymongo `update_one` with an `_id` filter and a
`$set` document — merges the supplied fields into the first matching record
and reports whether one matched. -/
def update_one (db : DB) (coll : String) (t : Nat) (payload : BDoc) : Bool × DB :=
  let r := updateFirstById t payload (db.colls coll)
  (r.1, setColl db coll r.2)

/-- Remove the first record whose `_id` is the given identifier; returns
whether one was removed. -/
def removeFirstById (t : Nat) : List BDoc → Bool × List BDoc
| [] => (false, [])
| d :: rest =>
    if bdocLookup d "_id" = some (.oid t) then (true, rest)
    else
      let r := removeFirstById t rest
      (r.1, d :: r.2)

/-- Modelled from the spec: pymongo `delete_one` with an `_id` filter —
removes the first matching record and reports whether one was removed. -/
def delete_one (db : DB) (coll : String) (t : Nat) : Bool × DB :=
  let r := removeFirstById t (db.colls coll)
  (r.1, setColl db coll r.2)

/-- Type check for a required `str` field. -/
def asStr : BVal → Option BVal
| .str s => some (.str s)
| _ => none

/-- Type check for a `bool` field. -/
def asBool : BVal → Option BVal
| .bool b => some (.bool b)
| _ => none

/-- Type check for an `int` field. -/
def asInt : BVal → Option BVal
| .int n => some (.int n)
| _ => none

/-- Type check for a `float` field (numeric scalars are modelled as
integers). -/
def asNum : BVal → Option BVal
| .int n => some (.int n)
| _ => none

/-- Type check for a `Literal[...]` string field. -/
def asLit (allowed : List String) : BVal → Option BVal
| .str s => if s ∈ allowed then some (.str s) else none
| _ => none

/-- Type check for an `Optional[str]` field. -/
def asOptStr : BVal → Option BVal
| .null => some .null
| .str s => some (.str s)
| _ => none

/-- Type check for an `Optional[Any]` field: anything is accepted. -/
def asAny (v : BVal) : Option BVal := some v

/-- Type check for a `Dict[str, Any]` field. -/
def asDict : BVal → Option BVal
| .doc d => some (.doc d)
| _ => none

/-- Check that every element of a list is a string. -/
def strElems : BList → Bool
| .nil => true
| .cons (.str _) rest => strElems rest
| .cons _ _ => false

/-- Type check for a `List[str]` field. -/
def asStrList : BVal → Option BVal
| .arr xs => if strElems xs then some (.arr xs) else none
| _ => none

/-- A required field of a pydantic model: present in the payload and passing
its type check, else validation fails. -/
def reqField (p : BDoc) (k : String) (chk : BVal → Option BVal) :
    Option (String × BVal) :=
  match bdocLookup p k with
  | some v => (chk v).map (fun v2 => (k, v2))
  | none => none

/-- An optional field of a pydantic model: the declared default is applied
when absent; a present value must pass its type check. -/
def optField (p : BDoc) (k : String) (chk : BVal → Option BVal) (dflt : BVal) :
    Option (String × BVal) :=
  match bdocLookup p k with
  | some v => (chk v).map (fun v2 => (k, v2))
  | none => some (k, dflt)

/-- Validation of `schemas.ColumnDef`: `model(**payload)` followed by a dump
of the declared fields in declaration order; extra payload fields are
ignored (pydantic default). -/
def ColumnDef_validate (p : BDoc) : Option BDoc := do
  let f1 ← reqField p "name" asStr
  let f2 ← reqField p "data_type"
    (asLit ["String", "Integer", "Boolean", "Date", "JSON", "Enum"])
  let f3 ← optField p "primary_key" asBool (.bool false)
  let f4 ← optField p "required" asBool (.bool false)
  let f5 ← optField p "default_value" asAny .null
  let f6 ← optField p "relation" asOptStr .null
  let f7 ← optField p "description" asOptStr .null
  some (listToDoc [f1, f2, f3, f4, f5, f6, f7])

/-- Coerce the elements of a `List[ColumnDef]` value: each element must be a
dict validating as a `ColumnDef`. -/
def coerceColumns : BList → Option BList
| .nil => some .nil
| .cons (.doc d) rest => do
    let d2 ← ColumnDef_validate d
    let r ← coerceColumns rest
    some (.cons (.doc d2) r)
| .cons _ _ => none

/-- Type check for the `columns : List[ColumnDef]` field of `TableDef`. -/
def asColumns : BVal → Option BVal
| .arr xs => (coerceColumns xs).map (fun r => .arr r)
| _ => none

/-- Validation of `schemas.Project`. -/
def Project_validate (p : BDoc) : Option BDoc := do
  let f1 ← reqField p "name" asStr
  let f2 ← optField p "db_type" (asLit ["PostgreSQL", "MySQL", "MongoDB"])
    (.str "MongoDB")
  let f3 ← optField p "region" asStr (.str "us-east-1")
  let f4 ← optField p "status" (asLit ["active", "provisioning", "error"])
    (.str "active")
  some (listToDoc [f1, f2, f3, f4])

/-- Validation of `schemas.ActivityLog`. -/
def ActivityLog_validate (p : BDoc) : Option BDoc := do
  let f1 ← reqField p "project_id" asStr
  let f2 ← reqField p "action" asStr
  let f3 ← optField p "details" asOptStr .null
  let f4 ← optField p "actor" asOptStr .null
  let f5 ← optField p "level" (asLit ["info", "warning", "error"]) (.str "info")
  some (listToDoc [f1, f2, f3, f4, f5])

/-- Validation of `schemas.TableDef`. -/
def TableDef_validate (p : BDoc) : Option BDoc := do
  let f1 ← reqField p "project_id" asStr
  let f2 ← reqField p "name" asStr
  let f3 ← optField p "description" asOptStr .null
  let f4 ← optField p "columns" asColumns (.arr .nil)
  some (listToDoc [f1, f2, f3, f4])

/-- Validation of `schemas.Relationship`. -/
def Relationship_validate (p : BDoc) : Option BDoc := do
  let f1 ← reqField p "project_id" asStr
  let f2 ← reqField p "name" asStr
  let f3 ← reqField p "rel_type"
    (asLit ["One-to-One", "One-to-Many", "Many-to-Many"])
  let f4 ← reqField p "source_table_id" asStr
  let f5 ← reqField p "target_table_id" asStr
  let f6 ← optField p "on_delete"
    (asLit ["NO ACTION", "CASCADE", "SET NULL", "RESTRICT"]) (.str "NO ACTION")
  let f7 ← optField p "on_update"
    (asLit ["NO ACTION", "CASCADE", "SET NULL", "RESTRICT"]) (.str "NO ACTION")
  some (listToDoc [f1, f2, f3, f4, f5, f6, f7])

/-- Validation of `schemas.ApiEndpoint`. -/
def ApiEndpoint_validate (p : BDoc) : Option BDoc := do
  let f1 ← reqField p "project_id" asStr
  let f2 ← reqField p "method" (asLit ["GET", "POST", "PUT", "PATCH", "DELETE"])
  let f3 ← reqField p "url" asStr
  let f4 ← optField p "auth_required" asBool (.bool true)
  let f5 ← optField p "description" asOptStr .null
  some (listToDoc [f1, f2, f3, f4, f5])

/-- Validation of `schemas.GraphQLSchema`. -/
def GraphQLSchema_validate (p : BDoc) : Option BDoc := do
  let f1 ← reqField p "project_id" asStr
  let f2 ← reqField p "schema" asDict
  some (listToDoc [f1, f2])

/-- Validation of `schemas.AuthSettings`. -/
def AuthSettings_validate (p : BDoc) : Option BDoc := do
  let f1 ← reqField p "project_id" asStr
  let f2 ← optField p "jwt_enabled" asBool (.bool true)
  let f3 ← optField p "oauth_google" asBool (.bool false)
  let f4 ← optField p "oauth_github" asBool (.bool false)
  let f5 ← optField p "oauth_microsoft" asBool (.bool false)
  some (listToDoc [f1, f2, f3, f4, f5])

/-- Validation of `schemas.Role`. -/
def Role_validate (p : BDoc) : Option BDoc := do
  let f1 ← reqField p "project_id" asStr
  let f2 ← reqField p "name" asStr
  let f3 ← optField p "description" asOptStr .null
  let f4 ← optField p "permissions" asStrList (.arr .nil)
  some (listToDoc [f1, f2, f3, f4])

/-- Validation of `schemas.Deployment`. -/
def Deployment_validate (p : BDoc) : Option BDoc := do
  let f1 ← reqField p "project_id" asStr
  let f2 ← reqField p "environment" (asLit ["Dev", "QA", "Production"])
  let f3 ← optField p "status" (asLit ["Success", "Pending", "Failed"])
    (.str "Pending")
  let f4 ← optField p "logs" asOptStr .null
  some (listToDoc [f1, f2, f3, f4])

/-- Validation of `schemas.ApiKey`. -/
def ApiKey_validate (p : BDoc) : Option BDoc := do
  let f1 ← reqField p "project_id" asStr
  let f2 ← reqField p "name" asStr
  let f3 ← reqField p "key" asStr
  some (listToDoc [f1, f2, f3])

/-- Validation of `schemas.TeamMember`. -/
def TeamMember_validate (p : BDoc) : Option BDoc := do
  let f1 ← reqField p "project_id" asStr
  let f2 ← reqField p "name" asStr
  let f3 ← reqField p "role" asStr
  let f4 ← optField p "status" (asLit ["invited", "active", "removed"])
    (.str "invited")
  some (listToDoc [f1, f2, f3, f4])

/-- Validation of `schemas.AnalyticsPoint`. -/
def AnalyticsPoint_validate (p : BDoc) : Option BDoc := do
  let f1 ← reqField p "project_id" asStr
  let f2 ← reqField p "metric" (asLit ["api_usage", "response_time", "error_rate"])
  let f3 ← reqField p "timestamp" asInt
  let f4 ← reqField p "value" asNum
  some (listToDoc [f1, f2, f3, f4])

/-- What the generic handlers need of a registered pydantic model: its
storage collection name (`collection_name`, the lowercase class name), its
declared field names (`model_fields`), and its validation
(`model(**payload)` followed by a dump). -/
structure Model where
  collName : String
  fieldNames : List String
  validate : BDoc → Option BDoc

/-- Registry entry for `Project` (collection `project`). -/
def ProjectModel : Model :=
  { collName := "project",
    fieldNames := ["name", "db_type", "region", "status"],
    validate := Project_validate }

/-- Registry entry for `TableDef` (collection `tabledef`). -/
def TableDefModel : Model :=
  { collName := "tabledef",
    fieldNames := ["project_id", "name", "description", "columns"],
    validate := TableDef_validate }

/-- Registry entry for `Relationship` (collection `relationship`). -/
def RelationshipModel : Model :=
  { collName := "relationship",
    fieldNames := ["project_id", "name", "rel_type", "source_table_id",
                   "target_table_id", "on_delete", "on_update"],
    validate := Relationship_validate }

/-- Registry entry for `ApiEndpoint` (collection `apiendpoint`). -/
def ApiEndpointModel : Model :=
  { collName := "apiendpoint",
    fieldNames := ["project_id", "method", "url", "auth_required", "description"],
    validate := ApiEndpoint_validate }

/-- Registry entry for `GraphQLSchema` (collection `graphqlschema`). -/
def GraphQLSchemaModel : Model :=
  { collName := "graphqlschema",
    fieldNames := ["project_id", "schema"],
    validate := GraphQLSchema_validate }

/-- Registry entry for `AuthSettings` (collection `authsettings`). -/
def AuthSettingsModel : Model :=
  { collName := "authsettings",
    fieldNames := ["project_id", "jwt_enabled", "oauth_google", "oauth_github",
                   "oauth_microsoft"],
    validate := AuthSettings_validate }

/-- Registry entry for `Role` (collection `role`). -/
def RoleModel : Model :=
  { collName := "role",
    fieldNames := ["project_id", "name", "description", "permissions"],
    validate := Role_validate }

/-- Registry entry for `Deployment` (collection `deployment`). -/
def DeploymentModel : Model :=
  { collName := "deployment",
    fieldNames := ["project_id", "environment", "status", "logs"],
    validate := Deployment_validate }

/-- Registry entry for `ApiKey` (collection `apikey`). -/
def ApiKeyModel : Model :=
  { collName := "apikey",
    fieldNames := ["project_id", "name", "key"],
    validate := ApiKey_validate }

/-- Registry entry for `TeamMember` (collection `teammember`). -/
def TeamMemberModel : Model :=
  { collName := "teammember",
    fieldNames := ["project_id", "name", "role", "status"],
    validate := TeamMember_validate }

/-- Registry entry for `ActivityLog` (collection `activitylog`). -/
def ActivityLogModel : Model :=
  { collName := "activitylog",
    fieldNames := ["project_id", "action", "details", "actor", "level"],
    validate := ActivityLog_validate }

/-- Registry entry for `AnalyticsPoint` (collection `analyticspoint`). -/
def AnalyticsPointModel : Model :=
  { collName := "analyticspoint",
    fieldNames := ["project_id", "metric", "timestamp", "value"],
    validate := AnalyticsPoint_validate }

/-- The fixed twelve-kind registry `ModelMap` from `main.py`, keyed by the
resource name appearing in the URL. -/
def ModelMap : List (String × Model) :=
  [("projects", ProjectModel),
   ("tables", TableDefModel),
   ("relationships", RelationshipModel),
   ("api-endpoints", ApiEndpointModel),
   ("graphql-schemas", GraphQLSchemaModel),
   ("auth-settings", AuthSettingsModel),
   ("roles", RoleModel),
   ("deployments", DeploymentModel),
   ("api-keys", ApiKeyModel),
   ("team-members", TeamMemberModel),
   ("activity", ActivityLogModel),
   ("analytics", AnalyticsPointModel)]

/-- Registry lookup: `ModelMap[resource]` when `resource in ModelMap`, else
`none`. -/
def mmLookup (resource : String) : Option Model :=
  (ModelMap.find? (fun e => e.1 = resource)).map (fun e => e.2)

/-- The `Project` request body of `POST /projects`, already validated by the
framework against `schemas.Project` (field defaults applied). -/
structure Project where
  name : String
  db_type : String
  region : String
  status : String

/-- The dump of a validated `Project` body, as inserted by
`create_document`. -/
def Project.dump (p : Project) : BDoc :=
  listToDoc [("name", .str p.name), ("db_type", .str p.db_type),
             ("region", .str p.region), ("status", .str p.status)]

/-- The dump of `AuthSettings(project_id=_id)` seeded by `create_project`:
every other field takes its declared default. -/
def authSettingsSeed (pid : String) : BDoc :=
  listToDoc [("project_id", .str pid), ("jwt_enabled", .bool true),
             ("oauth_google", .bool false), ("oauth_github", .bool false),
             ("oauth_microsoft", .bool false)]

/-- The dump of `Deployment(project_id=_id, environment=env)` seeded by
`create_project`: status defaults to `"Pending"`, logs to null. -/
def deploymentSeed (pid env : String) : BDoc :=
  listToDoc [("project_id", .str pid), ("environment", .str env),
             ("status", .str "Pending"), ("logs", .null)]

/-- Handler `POST /projects` (`create_project` in `main.py`): inserts the
Project, then seeds one default `AuthSettings` record and one `Deployment`
record per environment `Dev`, `QA`, `Production`, all carrying the new
project id; responds with `{"id": _id}`. -/
def create_project (db : DB) (payload : Project) : Except ApiError String × DB :=
  match create_document db ProjectModel.collName payload.dump with
  | (.error e, db1) => (.error e, db1)
  | (.ok pid, db1) =>
    match create_document db1 AuthSettingsModel.collName (authSettingsSeed pid) with
    | (.error e, db2) => (.error e, db2)
    | (.ok _, db2) =>
      match create_document db2 DeploymentModel.collName (deploymentSeed pid "Dev") with
      | (.error e, db3) => (.error e, db3)
      | (.ok _, db3) =>
        match create_document db3 DeploymentModel.collName (deploymentSeed pid "QA") with
        | (.error e, db4) => (.error e, db4)
        | (.ok _, db4) =>
          match create_document db4 DeploymentModel.collName
              (deploymentSeed pid "Production") with
          | (.error e, db5) => (.error e, db5)
          | (.ok _, db5) => (.ok pid, db5)

/-- Handler `DELETE /projects/{project_id}` (`delete_project` in `main.py`):
500 when the store was never connected; parses the path id through
`StrObjectId.validate`; deletes one Project record; 404 when none matched. -/
def delete_project (db : DB) (project_id : String) : Except ApiError Unit × DB :=
  if db.connected = false then
    (.error (.serverError "Database not available"), db)
  else
    match StrObjectId_validate project_id with
    | none => (.error .invalidObjectId, db)
    | some t =>
      let r := delete_one db ProjectModel.collName t
      if r.1 then (.ok (), r.2)
      else (.error (.notFound "Project not found"), r.2)

/-- Handler `GET /{resource}` (`list_by_project` in `main.py`): 404 for an
unknown resource kind; the empty list when the store was never connected; a
`project_id` filter is built only for a truthy (non-empty) query value; each
record is passed through `serialize_doc`. -/
def list_by_project (db : DB) (resource : String) (project_id : Option String) :
    Except ApiError (List BDoc) × DB :=
  match mmLookup resource with
  | none => (.error (.notFound "Unknown resource"), db)
  | some m =>
    if db.connected = false then (.ok [], db)
    else
      let filt : BDoc :=
        match project_id with
        | some p => if p = "" then .nil else .cons "project_id" (.str p) .nil
        | none => .nil
      (.ok ((get_documents db m.collName filt).map serialize_doc), db)

/-- Handler `POST /{resource}` (`create_item` in `main.py`): 404 for an
unknown resource kind; 422 when the payload fails the kind's schema; on
success inserts the validated record and responds with its new id. -/
def create_item (db : DB) (resource : String) (payload : BDoc) :
    Except ApiError String × DB :=
  match mmLookup resource with
  | none => (.error (.notFound "Unknown resource"), db)
  | some m =>
    match m.validate payload with
    | none => (.error (.unprocessable "validation error"), db)
    | some obj => create_document db m.collName obj

/-- Drop the payload fields not declared in the kind's schema — the
`{k: v for k, v in payload.items() if k in model.model_fields}` intersection
of `update_item`. -/
def intersectFields (payload : BDoc) (names : List String) : BDoc :=
  match payload with
  | .nil => .nil
  | .cons k v rest =>
    if k ∈ names then .cons k v (intersectFields rest names)
    else intersectFields rest names

/-- Handler `PUT /{resource}/{item_id}` (`update_item` in `main.py`): 404 for
an unknown resource kind; 500 when the store was never connected; validates
the schema-intersected payload fields but discards the outcome
(`try/except: pass`); parses the path id through `StrObjectId.validate`;
performs a `$set` of the entire original payload; 404 when no record
matched. -/
def update_item (db : DB) (resource : String) (item_id : String) (payload : BDoc) :
    Except ApiError Unit × DB :=
  match mmLookup resource with
  | none => (.error (.notFound "Unknown resource"), db)
  | some m =>
    if db.connected = false then
      (.error (.serverError "Database not available"), db)
    else
      let _discarded := m.validate (intersectFields payload m.fieldNames)
      match StrObjectId_validate item_id with
      | none => (.error .invalidObjectId, db)
      | some t =>
        let r := update_one db m.collName t payload
        if r.1 then (.ok (), r.2)
        else (.error (.notFound "Item not found"), r.2)

/-- Handler `DELETE /{resource}/{item_id}` (`delete_item` in `main.py`): 404
for an unknown resource kind; 500 when the store was never connected; parses
the path id through `StrObjectId.validate`; deletes one record; 404 when
none matched. -/
def delete_item (db : DB) (resource : String) (item_id : String) :
    Except ApiError Unit × DB :=
  match mmLookup resource with
  | none => (.error (.notFound "Unknown resource"), db)
  | some m =>
    if db.connected = false then
      (.error (.serverError "Database not available"), db)
    else
      match StrObjectId_validate item_id with
      | none => (.error .invalidObjectId, db)
      | some t =>
        let r := delete_one db m.collName t
        if r.1 then (.ok (), r.2)
        else (.error (.notFound "Item not found"), r.2)

/-- A disconnected store (`db is None`), as when the store was never
connected. -/
def dbOff : DB := { connected := false, colls := fun _ => [], nextId := 0 }

/-- A stored `apikey` record with identifier 5. -/
def recEx : BDoc := .cons "_id" (.oid 5) (.cons "name" (.str "k") .nil)

/-- A connected store holding one `apikey` record. -/
def dbEx : DB :=
  { connected := true,
    colls := fun c => if c = "apikey" then [recEx] else [],
    nextId := 7 }

/-- A valid `ApiKey` creation payload. -/
def payloadAK : BDoc :=
  listToDoc [("project_id", .str "p1"), ("name", .str "k1"), ("key", .str "v1")]

/-- An update payload whose only field is not declared in any kind's
schema. -/
def payloadExtra : BDoc := .cons "extra" (.int 3) .nil

/-- A document with a store-native identifier nested inside a sequence that
is itself directly inside a sequence. -/
def dNested : BDoc := .cons "k" (.arr (.cons (.arr (.cons (.oid 5) .nil)) .nil)) .nil

/-- A document with identifiers at the top level, directly inside a sequence,
and inside a map nested in a sequence — but no sequence directly inside a
sequence. -/
def dFlat : BDoc :=
  .cons "_id" (.oid 1)
    (.cons "xs" (.arr (.cons (.oid 2) (.cons (.doc (.cons "y" (.oid 3) .nil)) .nil)))
      (.cons "sub" (.doc (.cons "z" (.oid 4) .nil)) .nil))

/-- A validated `POST /projects` body. -/
def projEx : Project :=
  { name := "Shop", db_type := "PostgreSQL", region := "us-east-1",
    status := "active" }

/-- A stored `project` record with identifier 9. -/
def recProj : BDoc := .cons "_id" (.oid 9) (.cons "name" (.str "Shop") .nil)

/-- A connected store holding one `project` record, one `authsettings` record
and one `deployment` record, all tied to project 9. -/
def dbProj : DB :=
  { connected := true,
    colls := fun c =>
      if c = "project" then [recProj]
      else if c = "authsettings" then
        [.cons "_id" (.oid 10) (authSettingsSeed (oidToString 9))]
      else if c = "deployment" then
        [.cons "_id" (.oid 11) (deploymentSeed (oidToString 9) "Dev")]
      else [],
    nextId := 12 }

/-- Writing a collection back unchanged leaves the whole store unchanged. -/
theorem setColl_self (db : DB) (c : String) : setColl db c (db.colls c) = db := by
  cases db with
  | mk conn colls nid =>
    simp only [setColl]
    congr 1
    funext c2
    by_cases h : c2 = c
    · subst h; simp
    · simp [h]

/-- Looking up the overwritten key after a `setField` yields the new value. -/
theorem bdocLookup_setField_self : ∀ (d : BDoc) (k : String) (v : BVal),
    bdocLookup (setField d k v) k = some v
| .nil, k, v => by simp [setField, bdocLookup]
| .cons k0 v0 rest, k, v => by
    by_cases h : k = k0
    · subst h; simp [setField, bdocLookup]
    · simp [setField, bdocLookup, h, bdocLookup_setField_self rest k v]

/-- `setField` does not disturb the lookup of any other key. -/
theorem bdocLookup_setField_ne : ∀ (d : BDoc) (k k2 : String) (v : BVal),
    k2 ≠ k → bdocLookup (setField d k v) k2 = bdocLookup d k2
| .nil, k, k2, v, h => by simp [setField, bdocLookup, h]
| .cons k0 v0 rest, k, k2, v, h => by
    by_cases h0 : k = k0
    · subst h0
      simp [setField, bdocLookup, h]
    · by_cases h2 : k2 = k0 <;>
        simp [setField, bdocLookup, h0, h2, bdocLookup_setField_ne rest k k2 v h]

/-- Merging a payload leaves the lookup of keys outside the payload
unchanged. -/
theorem bdocLookup_mergeFields_notin : ∀ (p orig : BDoc) (k : String),
    k ∉ bdocKeys p → bdocLookup (mergeFields orig p) k = bdocLookup orig k
| .nil, _, _, _ => rfl
| .cons k0 v0 rest, orig, k, h => by
    have hne : k ≠ k0 := by
      intro h2; exact h (by simp [bdocKeys, h2])
    have hrest : k ∉ bdocKeys rest := by
      intro h2; exact h (by simp [bdocKeys, h2])
    rw [mergeFields, bdocLookup_mergeFields_notin rest (setField orig k0 v0) k hrest]
    exact bdocLookup_setField_ne orig k0 k v0 hne

/-- Every field of a duplicate-free payload is present, with exactly its
payload value, after the payload is merged into any original document. -/
theorem bdocLookup_mergeFields : ∀ (p orig : BDoc) (k : String) (v : BVal),
    keysNodup p = true → bdocLookup p k = some v →
    bdocLookup (mergeFields orig p) k = some v
| .nil, _, k, v, _, hlk => by simp [bdocLookup] at hlk
| .cons k0 v0 rest, orig, k, v, hnd, hlk => by
    have hnd2 : (k0 :: bdocKeys rest).Nodup := of_decide_eq_true hnd
    rw [List.nodup_cons] at hnd2
    by_cases h : k = k0
    · subst h
      have hv : v0 = v := by simpa [bdocLookup] using hlk
      subst hv
      rw [mergeFields, bdocLookup_mergeFields_notin rest (setField orig k v0) k hnd2.1]
      exact bdocLookup_setField_self orig k v0
    · have hlk2 : bdocLookup rest k = some v := by simpa [bdocLookup, h] using hlk
      rw [mergeFields]
      exact bdocLookup_mergeFields (rest) (setField orig k0 v0) k v
        (decide_eq_true hnd2.2) hlk2

/-- When no record of a collection bears the target id, `update_one`'s scan
matches nothing and returns the collection unchanged. -/
theorem updateFirstById_no_match : ∀ (l : List BDoc) (t : Nat) (p : BDoc),
    (∀ d ∈ l, bdocLookup d "_id" ≠ some (.oid t)) →
    updateFirstById t p l = (false, l)
| [], _, _, _ => rfl
| d :: rest, t, p, h => by
    rw [updateFirstById, if_neg (h d (List.mem_cons_self d rest))]
    simp [updateFirstById_no_match rest t p
      (fun d2 h2 => h d2 (List.mem_cons_of_mem d h2))]

/-- `update_one`'s scan rewrites exactly the first record bearing the target
id, leaving every record before and after it unchanged. -/
theorem updateFirstById_found : ∀ (pre : List BDoc) (tgt : BDoc)
    (post : List BDoc) (t : Nat) (p : BDoc),
    (∀ d ∈ pre, bdocLookup d "_id" ≠ some (.oid t)) →
    bdocLookup tgt "_id" = some (.oid t) →
    updateFirstById t p (pre ++ tgt :: post) =
      (true, pre ++ mergeFields tgt p :: post)
| [], tgt, post, t, p, _, htgt => by simp [updateFirstById, htgt]
| d :: pre, tgt, post, t, p, hpre, htgt => by
    rw [List.cons_append, updateFirstById,
        if_neg (hpre d (List.mem_cons_self d pre))]
    simp [updateFirstById_found pre tgt post t p
      (fun d2 h2 => hpre d2 (List.mem_cons_of_mem d h2)) htgt]

/-- When no record of a collection bears the target id, `delete_one`'s scan
removes nothing. -/
theorem removeFirstById_no_match : ∀ (l : List BDoc) (t : Nat),
    (∀ d ∈ l, bdocLookup d "_id" ≠ some (.oid t)) →
    removeFirstById t l = (false, l)
| [], _, _ => rfl
| d :: rest, t, h => by
    rw [removeFirstById, if_neg (h d (List.mem_cons_self d rest))]
    simp [removeFirstById_no_match rest t
      (fun d2 h2 => h d2 (List.mem_cons_of_mem d h2))]

/-- `delete_one`'s scan removes exactly the first record bearing the target
id, leaving every record before and after it unchanged. -/
theorem removeFirstById_found : ∀ (pre : List BDoc) (tgt : BDoc)
    (post : List BDoc) (t : Nat),
    (∀ d ∈ pre, bdocLookup d "_id" ≠ some (.oid t)) →
    bdocLookup tgt "_id" = some (.oid t) →
    removeFirstById t (pre ++ tgt :: post) = (true, pre ++ post)
| [], tgt, post, t, _, htgt => by simp [removeFirstById, htgt]
| d :: pre, tgt, post, t, hpre, htgt => by
    rw [List.cons_append, removeFirstById,
        if_neg (hpre d (List.mem_cons_self d pre))]
    simp [removeFirstById_found pre tgt post t
      (fun d2 h2 => hpre d2 (List.mem_cons_of_mem d h2)) htgt]

/-- C5: for every registered kind on a connected store, Update with a valid
id that matches no stored record answers 404 "Item not found" and returns
the store exactly as it was — no record of any kind is mutated. -/
theorem C5_update_missing_id_404 (db : DB) (res : String) (m : Model)
    (iid : String) (t : Nat) (payload : BDoc)
    (hm : mmLookup res = some m) (hconn : db.connected = true)
    (hid : parseObjectId iid = some t)
    (hnone : ∀ d ∈ db.colls m.collName, bdocLookup d "_id" ≠ some (.oid t)) :
    update_item db res iid payload = (.error (.notFound "Item not found"), db) := by
  have h1 := updateFirstById_no_match (db.colls m.collName) t payload hnone
  simp [update_item, update_one, StrObjectId_validate, hm, hconn, hid, h1,
        setColl_self]

/-- Witness for C5: updating the absent id 6 in the one-record store. -/
theorem C5_witness :
    update_item dbEx "api-keys" (oidToString 6) payloadExtra =
      (.error (.notFound "Item not found"), dbEx) :=
  C5_update_missing_id_404 dbEx "api-keys" ApiKeyModel (oidToString 6) 6
    payloadExtra rfl rfl (by decide) (by decide)

/-- C2: for every registered kind, Update on an existing record merges the
entire original payload — including fields not declared in the kind's
schema — verbatim into that record and answers success; the payload never
fails the request, whether or not its schema-intersected fields validate.
Every payload field is retrievable afterwards with exactly its payload
value, and every other collection is untouched. -/
theorem C2_update_persists_entire_payload (db : DB) (res : String) (m : Model)
    (iid : String) (t : Nat) (payload : BDoc) (pre : List BDoc) (tgt : BDoc)
    (post : List BDoc)
    (hm : mmLookup res = some m) (hconn : db.connected = true)
    (hid : parseObjectId iid = some t)
    (hcoll : db.colls m.collName = pre ++ tgt :: post)
    (hpre : ∀ d ∈ pre, bdocLookup d "_id" ≠ some (.oid t))
    (htgt : bdocLookup tgt "_id" = some (.oid t)) :
    (update_item db res iid payload).1 = .ok () ∧
    (update_item db res iid payload).2.colls m.collName =
      pre ++ mergeFields tgt payload :: post ∧
    (∀ c, c ≠ m.collName → (update_item db res iid payload).2.colls c = db.colls c) ∧
    (∀ k v, keysNodup payload = true → bdocLookup payload k = some v →
      bdocLookup (mergeFields tgt payload) k = some v) := by
  have h1 := updateFirstById_found pre tgt post t payload hpre htgt
  have hmain : update_item db res iid payload =
      (.ok (), setColl db m.collName (pre ++ mergeFields tgt payload :: post)) := by
    simp [update_item, update_one, StrObjectId_validate, hm, hconn, hid,
          hcoll, h1]
  exact ⟨by simp [hmain], by simp [hmain, setColl],
         fun c hc => by simp [hmain, setColl, hc],
         fun k v hnd hlk => bdocLookup_mergeFields payload tgt k v hnd hlk⟩

/-- Witness for C2: updating record 5 with a payload whose only field is
declared in no schema persists that field verbatim. -/
theorem C2_witness :
    (update_item dbEx "api-keys" (oidToString 5) payloadExtra).1 = .ok () ∧
    (update_item dbEx "api-keys" (oidToString 5) payloadExtra).2.colls "apikey" =
      [] ++ mergeFields recEx payloadExtra :: [] ∧
    (∀ c, c ≠ "apikey" →
      (update_item dbEx "api-keys" (oidToString 5) payloadExtra).2.colls c =
        dbEx.colls c) ∧
    (∀ k v, keysNodup payloadExtra = true → bdocLookup payloadExtra k = some v →
      bdocLookup (mergeFields recEx payloadExtra) k = some v) :=
  C2_update_persists_entire_payload dbEx "api-keys" ApiKeyModel
    (oidToString 5) 5 payloadExtra [] recEx []
    rfl rfl (by decide) (by decide) (by simp) (by decide)

/-- C4: for every resource-kind name outside the fixed twelve-kind registry,
each of List, Create, Update and Delete signals 404 "Unknown resource" and
leaves the store untouched, whatever its connectivity — the registry check
precedes any store access. -/
theorem C4_unknown_kind_404 (db : DB) (res : String) (hres : mmLookup res = none) :
    (∀ pid, list_by_project db res pid = (.error (.notFound "Unknown resource"), db)) ∧
    (∀ payload, create_item db res payload = (.error (.notFound "Unknown resource"), db)) ∧
    (∀ iid payload, update_item db res iid payload = (.error (.notFound "Unknown resource"), db)) ∧
    (∀ iid, delete_item db res iid = (.error (.notFound "Unknown resource"), db)) := by
  refine ⟨fun pid => ?_, fun payload => ?_, fun iid payload => ?_, fun iid => ?_⟩ <;>
    simp [list_by_project, create_item, update_item, delete_item, hres]

/-- Witness for C4 at the concrete unknown kind name `"unknown-kind"`. -/
theorem C4_witness :
    list_by_project dbEx "unknown-kind" none = (.error (.notFound "Unknown resource"), dbEx) ∧
    create_item dbEx "unknown-kind" payloadAK = (.error (.notFound "Unknown resource"), dbEx) ∧
    update_item dbEx "unknown-kind" "x" payloadAK = (.error (.notFound "Unknown resource"), dbEx) ∧
    delete_item dbEx "unknown-kind" "x" = (.error (.notFound "Unknown resource"), dbEx) := by
  have h := C4_unknown_kind_404 dbEx "unknown-kind" rfl
  exact ⟨h.1 none, h.2.1 payloadAK, h.2.2.1 "x" payloadAK, h.2.2.2 "x"⟩

/-- C3: when the store was never connected, Create (with a payload passing
the kind's schema), Update and Delete each signal the 500 store-unavailable
server error for every registered kind, while List returns the empty
sequence instead of erroring.  The Create branch is decided by the
spec-modelled `create_document`. -/
theorem C3_store_never_connected (db : DB) (hconn : db.connected = false) :
    (∀ res m pid, mmLookup res = some m →
      list_by_project db res pid = (.ok [], db)) ∧
    (∀ res m payload obj, mmLookup res = some m → m.validate payload = some obj →
      create_item db res payload = (.error (.serverError "Database not available"), db)) ∧
    (∀ res m iid payload, mmLookup res = some m →
      update_item db res iid payload = (.error (.serverError "Database not available"), db)) ∧
    (∀ res m iid, mmLookup res = some m →
      delete_item db res iid = (.error (.serverError "Database not available"), db)) := by
  refine ⟨fun res m pid h1 => ?_, fun res m payload obj h1 h2 => ?_,
         fun res m iid payload h1 => ?_, fun res m iid h1 => ?_⟩ <;>
    simp [list_by_project, create_item, update_item, delete_item,
          create_document, h1, hconn]
  simp [h2]

/-- Witness for C3 on a concrete disconnected store. -/
theorem C3_witness :
    list_by_project dbOff "roles" none = (.ok [], dbOff) ∧
    create_item dbOff "api-keys" payloadAK = (.error (.serverError "Database not available"), dbOff) ∧
    update_item dbOff "tables" "x" payloadExtra = (.error (.serverError "Database not available"), dbOff) ∧
    delete_item dbOff "deployments" "x" = (.error (.serverError "Database not available"), dbOff) := by
  have h := C3_store_never_connected dbOff rfl
  exact ⟨h.1 "roles" RoleModel none rfl,
         h.2.1 "api-keys" ApiKeyModel payloadAK payloadAK rfl rfl,
         h.2.2.1 "tables" TableDefModel "x" payloadExtra rfl,
         h.2.2.2 "deployments" DeploymentModel "x" rfl⟩

/-- C9: for every registered kind, Update and Delete with an id string that
is not a valid ObjectId literal stop with the raised
`ValueError("Invalid ObjectId")` and leave the store untouched — the store
is never consulted and the 404 branch is never reached. -/
theorem C9_invalid_objectid (db : DB) (res : String) (m : Model) (iid : String)
    (payload : BDoc) (hm : mmLookup res = some m) (hconn : db.connected = true)
    (hbad : parseObjectId iid = none) :
    update_item db res iid payload = (.error .invalidObjectId, db) ∧
    delete_item db res iid = (.error .invalidObjectId, db) := by
  constructor <;>
    simp [update_item, delete_item, StrObjectId_validate, hm, hconn, hbad]

/-- Witness for C9 at the concrete unparseable id `"not-an-objectid"`. -/
theorem C9_witness :
    update_item dbEx "api-keys" "not-an-objectid" payloadExtra = (.error .invalidObjectId, dbEx) ∧
    delete_item dbEx "api-keys" "not-an-objectid" = (.error .invalidObjectId, dbEx) :=
  C9_invalid_objectid dbEx "api-keys" ApiKeyModel "not-an-objectid" payloadExtra
    rfl rfl (by decide)

/-- C10: for every registered kind on a connected store, List with a
`project_id` equal to the empty string builds no filter — it behaves exactly
like List with no project filter and returns every record of the kind. -/
theorem C10_empty_project_id_lists_all (db : DB) (res : String) (m : Model)
    (hm : mmLookup res = some m) (hconn : db.connected = true) :
    list_by_project db res (some "") = list_by_project db res none ∧
    list_by_project db res (some "") =
      (.ok ((db.colls m.collName).map serialize_doc), db) := by
  constructor <;>
    simp [list_by_project, get_documents, matchesFilter, hm, hconn]

/-- Witness for C10 on the concrete one-record store. -/
theorem C10_witness :
    list_by_project dbEx "api-keys" (some "") = list_by_project dbEx "api-keys" none ∧
    list_by_project dbEx "api-keys" (some "") =
      (.ok ((dbEx.colls "apikey").map serialize_doc), dbEx) :=
  C10_empty_project_id_lists_all dbEx "api-keys" ApiKeyModel rfl rfl

/-- C1: on a connected store, creating a Project inserts the Project record
and additionally exactly one `AuthSettings` record (all settings at their
declared defaults) and exactly three `Deployment` records, with environments
`Dev`, `QA` and `Production`, each with initial status `"Pending"`, and each
carrying the newly created Project's id as its `project_id`; every other
collection is untouched. -/
theorem C1_create_project_seeds (db : DB) (p : Project)
    (hconn : db.connected = true) :
    (create_project db p).1 = .ok (oidToString db.nextId) ∧
    (create_project db p).2.colls "project" =
      db.colls "project" ++ [.cons "_id" (.oid db.nextId) p.dump] ∧
    (create_project db p).2.colls "authsettings" =
      db.colls "authsettings" ++
        [.cons "_id" (.oid (db.nextId + 1)) (authSettingsSeed (oidToString db.nextId))] ∧
    (create_project db p).2.colls "deployment" =
      db.colls "deployment" ++
        [.cons "_id" (.oid (db.nextId + 2)) (deploymentSeed (oidToString db.nextId) "Dev"),
         .cons "_id" (.oid (db.nextId + 3)) (deploymentSeed (oidToString db.nextId) "QA"),
         .cons "_id" (.oid (db.nextId + 4)) (deploymentSeed (oidToString db.nextId) "Production")] ∧
    (∀ c, c ≠ "project" → c ≠ "authsettings" → c ≠ "deployment" →
      (create_project db p).2.colls c = db.colls c) := by
  refine ⟨?_, ?_, ?_, ?_, fun c h1 h2 h3 => ?_⟩
  · simp [create_project, create_document, ProjectModel, AuthSettingsModel,
          DeploymentModel, setColl, hconn, Nat.add_assoc]
  · simp [create_project, create_document, ProjectModel, AuthSettingsModel,
          DeploymentModel, setColl, hconn, Nat.add_assoc]
  · simp [create_project, create_document, ProjectModel, AuthSettingsModel,
          DeploymentModel, setColl, hconn, Nat.add_assoc]
  · simp [create_project, create_document, ProjectModel, AuthSettingsModel,
          DeploymentModel, setColl, hconn, Nat.add_assoc]
  · simp [create_project, create_document, ProjectModel, AuthSettingsModel,
          DeploymentModel, setColl, hconn, h1, h2, h3, Nat.add_assoc]

/-- Witness for C1 on the concrete one-record store, with the frame checked
at the `role` collection. -/
theorem C1_witness :
    (create_project dbEx projEx).1 = .ok (oidToString 7) ∧
    (create_project dbEx projEx).2.colls "project" =
      dbEx.colls "project" ++ [.cons "_id" (.oid 7) projEx.dump] ∧
    (create_project dbEx projEx).2.colls "authsettings" =
      dbEx.colls "authsettings" ++
        [.cons "_id" (.oid 8) (authSettingsSeed (oidToString 7))] ∧
    (create_project dbEx projEx).2.colls "deployment" =
      dbEx.colls "deployment" ++
        [.cons "_id" (.oid 9) (deploymentSeed (oidToString 7) "Dev"),
         .cons "_id" (.oid 10) (deploymentSeed (oidToString 7) "QA"),
         .cons "_id" (.oid 11) (deploymentSeed (oidToString 7) "Production")] ∧
    (create_project dbEx projEx).2.colls "role" = dbEx.colls "role" := by
  have h := C1_create_project_seeds dbEx projEx rfl
  exact ⟨h.1, h.2.1, h.2.2.1, h.2.2.2.1,
         h.2.2.2.2 "role" (by decide) (by decide) (by decide)⟩

/-- C8: on a connected store, deleting a Project removes exactly the first
`project` record bearing the given id — every record before and after it in
the `project` collection survives, and every other collection, including the
previously seeded `authsettings` and `deployment` records, is left entirely
unchanged. -/
theorem C8_delete_project_frame (db : DB) (pid : String) (t : Nat)
    (pre : List BDoc) (tgt : BDoc) (post : List BDoc)
    (hconn : db.connected = true) (hid : parseObjectId pid = some t)
    (hcoll : db.colls "project" = pre ++ tgt :: post)
    (hpre : ∀ d ∈ pre, bdocLookup d "_id" ≠ some (.oid t))
    (htgt : bdocLookup tgt "_id" = some (.oid t)) :
    (delete_project db pid).1 = .ok () ∧
    (delete_project db pid).2.colls "project" = pre ++ post ∧
    (∀ c, c ≠ "project" → (delete_project db pid).2.colls c = db.colls c) := by
  have h1 := removeFirstById_found pre tgt post t hpre htgt
  have hmain : delete_project db pid =
      (.ok (), setColl db "project" (pre ++ post)) := by
    simp [delete_project, delete_one, StrObjectId_validate, ProjectModel,
          hconn, hid, hcoll, h1]
  exact ⟨by simp [hmain], by simp [hmain, setColl],
         fun c hc => by simp [hmain, setColl, hc]⟩

/-- Witness for C8: deleting project 9 from the store that also holds its
seeded auth settings and deployment, checking those collections survive. -/
theorem C8_witness :
    (delete_project dbProj (oidToString 9)).1 = .ok () ∧
    (delete_project dbProj (oidToString 9)).2.colls "project" = [] ++ [] ∧
    (delete_project dbProj (oidToString 9)).2.colls "authsettings" =
      dbProj.colls "authsettings" ∧
    (delete_project dbProj (oidToString 9)).2.colls "deployment" =
      dbProj.colls "deployment" := by
  have h := C8_delete_project_frame dbProj (oidToString 9) 9 [] recProj []
    rfl (by decide) (by decide) (by simp) (by decide)
  exact ⟨h.1, h.2.1, h.2.2 "authsettings" (by decide),
         h.2.2 "deployment" (by decide)⟩

mutual

/-- Serializing an already-serialized document is a no-op. -/
theorem serialize_doc_idem : ∀ (d : BDoc),
    serialize_doc (serialize_doc d) = serialize_doc d
| .nil => rfl
| .cons k v rest => by
    rw [serialize_doc, serialize_doc, serializeValue_idem v,
        serialize_doc_idem rest]

/-- Serializing an already-serialized field value is a no-op. -/
theorem serializeValue_idem : ∀ (v : BVal),
    serializeValue (serializeValue v) = serializeValue v
| .oid n => rfl
| .str s => rfl
| .int n => rfl
| .bool b => rfl
| .null => rfl
| .arr xs => by rw [serializeValue, serializeValue, serializeElems_idem xs]
| .doc d => by rw [serializeValue, serializeValue, serialize_doc_idem d]

/-- Serializing already-serialized list elements is a no-op — including for
an element that is itself a list, which both passes leave unchanged. -/
theorem serializeElems_idem : ∀ (xs : BList),
    serializeElems (serializeElems xs) = serializeElems xs
| .nil => rfl
| .cons i rest => by
    cases i with
    | oid n => simp [serializeElems, serializeElems_idem rest]
    | str s => simp [serializeElems, serializeElems_idem rest]
    | int n => simp [serializeElems, serializeElems_idem rest]
    | bool b => simp [serializeElems, serializeElems_idem rest]
    | null => simp [serializeElems, serializeElems_idem rest]
    | arr ys => simp [serializeElems, serializeElems_idem rest]
    | doc d => simp [serializeElems, serializeElems_idem rest,
                     serialize_doc_idem d]

end

mutual

/-- On a document free of directly nested sequences, the serializer removes
every store-native identifier. -/
theorem flat_oidFree_doc : ∀ (d : BDoc), flatD d = true →
    oidFreeD (serialize_doc d) = true
| .nil, _ => rfl
| .cons k v rest, h => by
    rw [flatD, Bool.and_eq_true] at h
    simp [serialize_doc, oidFreeD, flat_oidFree_val v h.1,
          flat_oidFree_doc rest h.2]

/-- On a field value free of directly nested sequences, the serializer
removes every store-native identifier. -/
theorem flat_oidFree_val : ∀ (v : BVal), flatV v = true →
    oidFreeV (serializeValue v) = true
| .oid n, _ => by simp [serializeValue, oidFreeV]
| .str s, _ => rfl
| .int n, _ => rfl
| .bool b, _ => rfl
| .null, _ => rfl
| .arr xs, h => by
    rw [flatV] at h
    simp [serializeValue, oidFreeV, flat_oidFree_elems xs h]
| .doc d, h => by
    rw [flatV] at h
    simp [serializeValue, oidFreeV, flat_oidFree_doc d h]

/-- On list elements that are scalars or documents (no directly nested
sequences), the serializer removes every store-native identifier. -/
theorem flat_oidFree_elems : ∀ (xs : BList), flatElems xs = true →
    oidFreeL (serializeElems xs) = true
| .nil, _ => rfl
| .cons i rest, h => by
    cases i with
    | oid n =>
        simp only [flatElems, Bool.and_eq_true] at h
        simp [serializeElems, oidFreeL, oidFreeV,
              flat_oidFree_elems rest h.2]
    | str s =>
        simp only [flatElems, Bool.and_eq_true] at h
        simp [serializeElems, oidFreeL, oidFreeV,
              flat_oidFree_elems rest h.2]
    | int n =>
        simp only [flatElems, Bool.and_eq_true] at h
        simp [serializeElems, oidFreeL, oidFreeV,
              flat_oidFree_elems rest h.2]
    | bool b =>
        simp only [flatElems, Bool.and_eq_true] at h
        simp [serializeElems, oidFreeL, oidFreeV,
              flat_oidFree_elems rest h.2]
    | null =>
        simp only [flatElems, Bool.and_eq_true] at h
        simp [serializeElems, oidFreeL, oidFreeV,
              flat_oidFree_elems rest h.2]
    | arr ys => simp [flatElems] at h
    | doc d =>
        simp only [flatElems, Bool.and_eq_true] at h
        simp [serializeElems, oidFreeL, oidFreeV,
              flat_oidFree_doc d h.1, flat_oidFree_elems rest h.2]

end

/-- C6 as stated is false: on this document, whose identifier sits inside a
sequence nested directly inside a sequence, the serializer returns its input
unchanged and an identifier survives in its output. -/
theorem C6_counterexample :
    serialize_doc dNested = dNested ∧ oidFreeD (serialize_doc dNested) = false :=
  ⟨by decide, by decide⟩

/-- C6 amended: the serializer replaces every store-native identifier — at
the top level, inside a map value, or inside a sequence element, at any
nesting depth — provided no sequence is nested directly inside another
sequence, and it leaves every other scalar value untouched. -/
theorem C6_amended_serializer :
    (∀ d, flatD d = true → oidFreeD (serialize_doc d) = true) ∧
    (∀ s, serializeValue (.str s) = .str s) ∧
    (∀ n, serializeValue (.int n) = .int n) ∧
    (∀ b, serializeValue (.bool b) = .bool b) ∧
    serializeValue .null = .null :=
  ⟨fun d h => flat_oidFree_doc d h,
   fun _ => rfl, fun _ => rfl, fun _ => rfl, rfl⟩

/-- Witness for the amended C6: a document with identifiers at the top
level, inside a sequence, and inside a map nested in a sequence comes out
identifier-free. -/
theorem C6_amended_witness :
    flatD dFlat = true ∧ oidFreeD (serialize_doc dFlat) = true :=
  ⟨by decide, C6_amended_serializer.1 dFlat (by decide)⟩

/-- C7: the serializer is idempotent — serializing the serializer's own
output yields that output unchanged, for every document. -/
theorem C7_serializer_idempotent (d : BDoc) :
    serialize_doc (serialize_doc d) = serialize_doc d :=
  serialize_doc_idem d

end BackendForge
